import Mathlib

/-
Verification of the Secure-Chat connection router (backend WebSocket
handler, `WebSocketHandler` in the repository, plus the thin HTTP
introspection endpoints) against its natural-language specification.

The router keeps two JavaScript `Map`s:
  connectedUsers : username -> socket.id
  userSockets    : socket.id -> user data (username, connectedAt)
and dispatches the events authenticate, sendMessage, typing and
disconnect. We embed the state as association lists with JavaScript
`Map` semantics (set replaces in place, delete removes, get finds the
unique entry) and each handler as a pure function from state and input
to a new state together with the list of emitted (socketId, event)
pairs, in emission order. `Date.now()` and `Math.random()` are passed
in explicitly through an `Env` value.
-/

namespace SecureChat

/-- JavaScript `Map.prototype.get`: the value stored at the first (and,
for lists built by `mapSet`, the only) entry with the given key. -/
def mapGet {β : Type} : List (String × β) → String → Option β
  | [], _ => none
  | (k', v) :: rest, k => if k' = k then some v else mapGet rest k

/-- JavaScript `Map.prototype.set`: replace the value at an existing key
in place, keeping its position, else append the new entry at the end. -/
def mapSet {β : Type} : List (String × β) → String → β → List (String × β)
  | [], k, v => [(k, v)]
  | (k', v') :: rest, k, v =>
    if k' = k then (k, v) :: rest else (k', v') :: mapSet rest k v

/-- JavaScript `Map.prototype.delete`: remove the entry with the given
key (every entry with that key, which is at most one in reachable maps). -/
def mapDelete {β : Type} (m : List (String × β)) (k : String) : List (String × β) :=
  m.filter (fun p => p.1 != k)

/-- JavaScript `Map.prototype.has`. -/
def mapHas {β : Type} (m : List (String × β)) (k : String) : Bool :=
  (mapGet m k).isSome

/-- JavaScript `Map.prototype.size`. -/
def mapSize {β : Type} (m : List (String × β)) : Nat :=
  m.length

/-- JavaScript `Array.from(map.keys())`. -/
def mapKeys {β : Type} (m : List (String × β)) : List String :=
  m.map Prod.fst

/-- The per-socket user data stored in `userSockets`:
`\x7b username, connectedAt: new Date() \x7d`. -/
structure UserData where
  username : String
  connectedAt : Nat
  deriving Repr, DecidableEq

/-- The mutable state of `WebSocketHandler`: the two maps set up in its
constructor (`connectedUsers` maps username to socket id, `userSockets`
maps socket id to user data). -/
structure WSState where
  connectedUsers : List (String × String)
  userSockets : List (String × UserData)
  deriving Repr, DecidableEq

/-- The state built by the `WebSocketHandler` constructor: both maps empty. -/
def emptyState : WSState :=
  ⟨[], []⟩

/-- Events the router emits to client sockets (Router -> Client
vocabulary). Fields keep the source names except `from`, a Lean keyword,
rendered `fromUser`. -/
inductive WSEvent where
  | authError (error : String)
  | authenticated (success : Bool) (username : String)
  | errorEvent (error : String)
  | message (id fromUser toUser content : String) (timestamp deliveredAt : Nat)
  | messageDelivered (messageId status : String) (error : Option String) (timestamp : Nat)
  | userTyping (fromUser : String) (isTyping : Bool)
  deriving Repr, DecidableEq

/-- An emission: `socket.emit` or `io.to(socketId).emit`, recorded as the
target socket id together with the event. -/
abbrev Emit := String × WSEvent

/-- The ambient values the handlers read: `Date.now()` and the random
suffix `Math.random().toString(36).substr(2, 9)`. -/
structure Env where
  now : Nat
  rand : String
  deriving Repr, DecidableEq

/-- JavaScript truthiness of an optional string field: `undefined` and
the empty string are falsy. -/
def strTruthy : Option String → Bool
  | none => false
  | some s => s != ""

/-- The generated message id
`msg_$\x7bDate.now()\x7d_$\x7bMath.random().toString(36).substr(2, 9)\x7d`. -/
def genMessageId (env : Env) : String :=
  "msg_" ++ toString env.now ++ "_" ++ env.rand

/-- `WebSocketHandler.handleAuthentication`. `username` is the
(possibly missing) `username` field of `authData`; `now` models
`new Date()`. Returns the new state and the emitted events. -/
def handleAuthentication (now : Nat) (socketId : String) (username : Option String)
    (s : WSState) : WSState × List Emit :=
  if strTruthy username then
    match username with
    | some u =>
      (⟨mapSet s.connectedUsers u socketId,
        mapSet s.userSockets socketId ⟨u, now⟩⟩,
       [(socketId, WSEvent.authenticated true u)])
    | none => (s, [])
  else
    (s, [(socketId, WSEvent.authError "Username is required")])

/-- The `messageData` payload of a `sendMessage` event; every field may
be absent. -/
structure MessageData where
  toUser : Option String
  encryptedContent : Option String
  timestamp : Option Nat
  id : Option String
  deriving Repr, DecidableEq

/-- JavaScript `timestamp || Date.now()`: a missing or zero timestamp is
falsy and replaced by the current time. -/
def resolveTimestamp (timestamp : Option Nat) (now : Nat) : Nat :=
  match timestamp with
  | none => now
  | some t => if t = 0 then now else t

/-- JavaScript `id || generated`: a missing or empty caller id is falsy
and replaced by the generated token. -/
def resolveMessageId (id : Option String) (env : Env) : String :=
  match id with
  | none => genMessageId env
  | some i => if i = "" then genMessageId env else i

/-- `WebSocketHandler.handleMessageSend`. The state is returned
unchanged because the source never mutates either map here; the emitted
events follow the three branches of the source: not authenticated,
missing recipient or content, and the online/offline recipient cases. -/
def handleMessageSend (env : Env) (socketId : String) (md : MessageData)
    (s : WSState) : WSState × List Emit :=
  match mapGet s.userSockets socketId with
  | none => (s, [(socketId, WSEvent.errorEvent "Not authenticated")])
  | some senderData =>
    if strTruthy md.toUser && strTruthy md.encryptedContent then
      match md.toUser, md.encryptedContent with
      | some toUser, some content =>
        let messageId := resolveMessageId md.id env
        match mapGet s.connectedUsers toUser with
        | some recipientSocketId =>
          (s, [(recipientSocketId,
                WSEvent.message messageId senderData.username toUser content
                  (resolveTimestamp md.timestamp env.now) env.now),
               (socketId,
                WSEvent.messageDelivered messageId "delivered" none env.now)])
        | none =>
          (s, [(socketId,
                WSEvent.messageDelivered messageId "failed"
                  (some "Recipient is offline") env.now)])
      | _, _ => (s, [])
    else
      (s, [(socketId, WSEvent.errorEvent "Recipient and message content are required")])

/-- The `typingData` payload of a `typing` event. -/
structure TypingData where
  toUser : Option String
  isTyping : Bool
  deriving Repr, DecidableEq

/-- `WebSocketHandler.handleTyping`: silently return when the sender is
not authenticated; otherwise forward a `userTyping` event to the
recipient when connected, else silently discard. Never mutates state. -/
def handleTyping (socketId : String) (td : TypingData)
    (s : WSState) : WSState × List Emit :=
  match mapGet s.userSockets socketId with
  | none => (s, [])
  | some senderData =>
    match td.toUser with
    | none => (s, [])
    | some toUser =>
      match mapGet s.connectedUsers toUser with
      | none => (s, [])
      | some recipientSocketId =>
        (s, [(recipientSocketId, WSEvent.userTyping senderData.username td.isTyping)])

/-- `WebSocketHandler.handleDisconnection`: when the socket has user
data, delete the username entry from `connectedUsers` (unconditionally,
with no check that it still points at this socket) and the socket entry
from `userSockets`. Emits nothing. -/
def handleDisconnection (socketId : String) (s : WSState) : WSState :=
  match mapGet s.userSockets socketId with
  | none => s
  | some userData =>
    ⟨mapDelete s.connectedUsers userData.username,
     mapDelete s.userSockets socketId⟩

/-- `WebSocketHandler.getConnectedUsersCount`. -/
def getConnectedUsersCount (s : WSState) : Nat :=
  mapSize s.connectedUsers

/-- `WebSocketHandler.getConnectedUsernames`. -/
def getConnectedUsernames (s : WSState) : List String :=
  mapKeys s.connectedUsers

/-- `WebSocketHandler.isUserOnline`. -/
def isUserOnline (s : WSState) (username : String) : Bool :=
  mapHas s.connectedUsers username

/-- A sequence of authenticate events applied in order: each call is a
connect time, a socket id and the optional username field of its
`authData`. Emitted events are dropped; only the state evolves. -/
def runIdentifies : List (Nat × String × Option String) → WSState → WSState
  | [], s => s
  | c :: rest, s => runIdentifies rest (handleAuthentication c.1 c.2.1 c.2.2 s).1

/-! Lemmas about the `Map` model, proved by induction on the backing
association list. -/

theorem mapGet_set_self {β : Type} (m : List (String × β)) (k : String) (v : β) :
    mapGet (mapSet m k v) k = some v := by
  induction m with
  | nil => simp [mapSet, mapGet]
  | cons p rest ih =>
    by_cases h : p.1 = k
    · simp [mapSet, mapGet, h]
    · simp [mapSet, mapGet, h, ih]

theorem mapGet_set_ne {β : Type} (m : List (String × β)) (k k' : String) (v : β)
    (h : k' ≠ k) : mapGet (mapSet m k v) k' = mapGet m k' := by
  have h' : ¬ k = k' := fun hh => h hh.symm
  induction m with
  | nil => simp [mapSet, mapGet, h']
  | cons p rest ih =>
    by_cases hp : p.1 = k
    · subst hp
      simp [mapSet, mapGet, h']
    · by_cases hp' : p.1 = k'
      · subst hp'
        simp [mapSet, mapGet, hp]
      · simp [mapSet, mapGet, hp, hp', ih]

theorem mapHas_delete_self {β : Type} (m : List (String × β)) (k : String) :
    mapHas (mapDelete m k) k = false := by
  induction m with
  | nil => simp [mapDelete, mapHas, mapGet]
  | cons p rest ih =>
    by_cases h : p.1 = k
    · simpa [mapDelete, List.filter_cons, h] using ih
    · simpa [mapDelete, mapHas, mapGet, List.filter_cons, h] using ih

theorem mapHas_iff_mem_keys {β : Type} (m : List (String × β)) (k : String) :
    mapHas m k = true ↔ k ∈ mapKeys m := by
  induction m with
  | nil => simp [mapHas, mapGet, mapKeys]
  | cons p rest ih =>
    by_cases h : p.1 = k
    · simp [mapHas, mapGet, mapKeys, h]
    · have h' : ¬ k = p.1 := fun hh => h hh.symm
      simpa [mapHas, mapGet, mapKeys, h, h'] using ih

theorem mapSize_eq_keys_length {β : Type} (m : List (String × β)) :
    mapSize m = (mapKeys m).length := by
  simp [mapSize, mapKeys]

theorem mapKeys_cons {β : Type} (p : String × β) (rest : List (String × β)) :
    mapKeys (p :: rest) = p.1 :: mapKeys rest :=
  rfl

theorem mapKeys_set_of_mem {β : Type} (m : List (String × β)) (k : String) (v : β) :
    k ∈ mapKeys m → mapKeys (mapSet m k v) = mapKeys m := by
  induction m with
  | nil => simp [mapKeys]
  | cons p rest ih =>
    intro h
    by_cases hp : p.1 = k
    · simp [mapSet, mapKeys, hp]
    · have hmem : k ∈ mapKeys rest := by
        rcases (by rw [mapKeys_cons] at h; exact List.mem_cons.mp h) with h1 | h2
        · exact absurd h1.symm hp
        · exact h2
      rw [show mapSet (p :: rest) k v = p :: mapSet rest k v from by simp [mapSet, hp]]
      rw [mapKeys_cons, mapKeys_cons, ih hmem]

theorem mapKeys_set_of_not_mem {β : Type} (m : List (String × β)) (k : String) (v : β) :
    k ∉ mapKeys m → mapKeys (mapSet m k v) = mapKeys m ++ [k] := by
  induction m with
  | nil => simp [mapSet, mapKeys]
  | cons p rest ih =>
    intro h
    have hp : p.1 ≠ k := by
      intro hh
      exact h (by rw [mapKeys_cons, hh]; exact List.mem_cons_self _ _)
    have hrest : k ∉ mapKeys rest := by
      intro hh
      exact h (by rw [mapKeys_cons]; exact List.mem_cons_of_mem _ hh)
    rw [show mapSet (p :: rest) k v = p :: mapSet rest k v from by simp [mapSet, hp]]
    rw [mapKeys_cons, mapKeys_cons, ih hrest]
    rfl

theorem mapKeys_set_nodup {β : Type} (m : List (String × β)) (k : String) (v : β)
    (h : (mapKeys m).Nodup) : (mapKeys (mapSet m k v)).Nodup := by
  by_cases hm : k ∈ mapKeys m
  · rw [mapKeys_set_of_mem m k v hm]
    exact h
  · rw [mapKeys_set_of_not_mem m k v hm]
    refine List.Nodup.append h (by simp) ?_
    intro a ha hb
    rw [List.mem_singleton] at hb
    exact hm (hb ▸ ha)

theorem auth_preserves_nodup (n : Nat) (h : String) (u : Option String) (s : WSState)
    (hs : (mapKeys s.connectedUsers).Nodup) :
    (mapKeys ((handleAuthentication n h u s).1).connectedUsers).Nodup := by
  cases u with
  | none => simpa [handleAuthentication, strTruthy] using hs
  | some v =>
    by_cases hv : v = ""
    · simpa [handleAuthentication, strTruthy, hv] using hs
    · simp only [handleAuthentication, strTruthy]
      simp only [hv, bne_iff_ne, ne_eq, not_false_iff, if_true]
      exact mapKeys_set_nodup _ _ _ hs

theorem runIdentifies_keys_nodup (calls : List (Nat × String × Option String))
    (s : WSState) (hs : (mapKeys s.connectedUsers).Nodup) :
    (mapKeys (runIdentifies calls s).connectedUsers).Nodup := by
  induction calls generalizing s with
  | nil => simpa [runIdentifies] using hs
  | cons c rest ih =>
    simp only [runIdentifies]
    exact ih _ (auth_preserves_nodup _ _ _ _ hs)

/-! Claim theorems. -/

/-- C1, counterexample. The spec claims the disconnect handler removes
the Presence Table binding for the identity only if it still points at
the closing handle, so that after identify A on H1, identify A on H2 and
a disconnect of H1, the query is A online returns true. The source
deletes `connectedUsers` at the username unconditionally, so the query
returns false. -/
theorem c1_counterexample :
    isUserOnline
      (handleDisconnection "H1"
        ((handleAuthentication 1 "H2" (some "A")
          ((handleAuthentication 0 "H1" (some "A") emptyState).1)).1)) "A" = false := by
  decide

/-- C1, amended: handling the transport close of an identified handle
removes the userSockets entry of the handle and the connectedUsers entry
of its stored username unconditionally, with no check that the username
still maps to this handle; hence after identify A on H1 and identify A
on H2, disconnecting H1 evicts the live binding to H2 and the query is A
online returns false. -/
theorem c1_disconnect_unconditional (s : WSState) (A h1 h2 : String) (n1 n2 : Nat)
    (hA : A ≠ "") (hh : h1 ≠ h2) :
    isUserOnline
      (handleDisconnection h1
        ((handleAuthentication n2 h2 (some A)
          ((handleAuthentication n1 h1 (some A) s).1)).1)) A = false := by
  have hget : mapGet (mapSet (mapSet s.userSockets h1 ⟨A, n1⟩) h2 ⟨A, n2⟩) h1
      = some ⟨A, n1⟩ := by
    rw [mapGet_set_ne _ h2 h1 _ hh, mapGet_set_self]
  simp [handleAuthentication, strTruthy, hA, handleDisconnection, hget,
    isUserOnline, mapHas_delete_self]

/-- C1, witness for the amended theorem at concrete inputs. -/
theorem c1_disconnect_unconditional_witness :
    isUserOnline
      (handleDisconnection "S1"
        ((handleAuthentication 7 "S2" (some "carol")
          ((handleAuthentication 3 "S1" (some "carol") emptyState).1)).1)) "carol" = false :=
  c1_disconnect_unconditional emptyState "carol" "S1" "S2" 3 7 (by decide) (by decide)

/-- C5 (confirmed): a sendMessage from an unidentified connection leaves
the state (hence the Presence Table) unchanged and emits exactly one
error event on the same connection, the source literal string Not
authenticated (the not identified error of the spec); no event reaches
any other connection. -/
theorem c5_unidentified_send (env : Env) (s : WSState) (h : String) (md : MessageData)
    (hanon : mapGet s.userSockets h = none) :
    handleMessageSend env h md s = (s, [(h, WSEvent.errorEvent "Not authenticated")]) := by
  simp [handleMessageSend, hanon]

/-- C5, witness at concrete inputs. -/
theorem c5_unidentified_send_witness :
    handleMessageSend ⟨9, "zz"⟩ "H9" ⟨some "bob", some "hi", none, none⟩ emptyState
      = (emptyState, [("H9", WSEvent.errorEvent "Not authenticated")]) :=
  c5_unidentified_send ⟨9, "zz"⟩ emptyState "H9" ⟨some "bob", some "hi", none, none⟩ (by decide)

/-- C6 (confirmed): an identify request with a missing or empty username
leaves the state unchanged and emits the identification failed error
(source literal Username is required, the identity required reason of
the spec); with a non-empty username u the router binds u to the handle
in connectedUsers, binds the handle to u in userSockets, and emits the
authenticated acknowledgement carrying u on the same connection. -/
theorem c6_identify (s : WSState) (h u : String) (n : Nat) (hu : u ≠ "") :
    handleAuthentication n h none s
      = (s, [(h, WSEvent.authError "Username is required")]) ∧
    handleAuthentication n h (some "") s
      = (s, [(h, WSEvent.authError "Username is required")]) ∧
    mapGet ((handleAuthentication n h (some u) s).1).connectedUsers u = some h ∧
    mapGet ((handleAuthentication n h (some u) s).1).userSockets h = some ⟨u, n⟩ ∧
    (handleAuthentication n h (some u) s).2 = [(h, WSEvent.authenticated true u)] := by
  refine ⟨by simp [handleAuthentication, strTruthy], by simp [handleAuthentication, strTruthy],
    ?_, ?_, ?_⟩
  · simp [handleAuthentication, strTruthy, hu, mapGet_set_self]
  · simp [handleAuthentication, strTruthy, hu, mapGet_set_self]
  · simp [handleAuthentication, strTruthy, hu]

/-- C6, witness at concrete inputs. -/
theorem c6_identify_witness :
    handleAuthentication 4 "W1" none emptyState
      = (emptyState, [("W1", WSEvent.authError "Username is required")]) ∧
    handleAuthentication 4 "W1" (some "") emptyState
      = (emptyState, [("W1", WSEvent.authError "Username is required")]) ∧
    mapGet ((handleAuthentication 4 "W1" (some "dave") emptyState).1).connectedUsers "dave"
      = some "W1" ∧
    mapGet ((handleAuthentication 4 "W1" (some "dave") emptyState).1).userSockets "W1"
      = some ⟨"dave", 4⟩ ∧
    (handleAuthentication 4 "W1" (some "dave") emptyState).2
      = [("W1", WSEvent.authenticated true "dave")] :=
  c6_identify emptyState "W1" "dave" 4 (by decide)

/-- C7, counterexample. The spec claims the identity of a connection is
set exactly once and immutable for the lifetime of the connection. In
the source a second authenticate on the same socket overwrites the
stored user data: socket H1 identifies as alice and then as bob, and its
stored identity changes from alice to bob. -/
theorem c7_counterexample :
    mapGet ((handleAuthentication 0 "H1" (some "alice") emptyState).1).userSockets "H1"
      = some ⟨"alice", 0⟩ ∧
    mapGet ((handleAuthentication 1 "H1" (some "bob")
        ((handleAuthentication 0 "H1" (some "alice") emptyState).1)).1).userSockets "H1"
      = some ⟨"bob", 1⟩ ∧
    ("alice" : String) ≠ "bob" := by
  refine ⟨by decide, by decide, by decide⟩

/-- C7, amended: the identity bound to a connection handle is not
immutable; it is the username of the most recent successful identify on
that handle, each successful identify overwriting the stored user
data. -/
theorem c7_last_identify_wins (s : WSState) (h u1 u2 : String) (n1 n2 : Nat)
    (hu1 : u1 ≠ "") (hu2 : u2 ≠ "") :
    mapGet ((handleAuthentication n2 h (some u2)
        ((handleAuthentication n1 h (some u1) s).1)).1).userSockets h = some ⟨u2, n2⟩ := by
  simp [handleAuthentication, strTruthy, hu1, hu2, mapGet_set_self]

/-- C7, witness for the amended theorem at concrete inputs. -/
theorem c7_last_identify_wins_witness :
    mapGet ((handleAuthentication 6 "Q1" (some "erin")
        ((handleAuthentication 5 "Q1" (some "frank") emptyState).1)).1).userSockets "Q1"
      = some ⟨"erin", 6⟩ :=
  c7_last_identify_wins emptyState "Q1" "frank" "erin" 5 6 (by decide) (by decide)

/-- C2, counterexample. The spec claims at most one connection handle
maps to a given identity at any instant in both directions of the
Presence Table. After identify A on H1 and identify A on H2, the
userSockets direction holds two distinct handles both bound to identity
A: re-identify under the same name never removes the superseded handle
from userSockets. -/
theorem c2_counterexample :
    ("H1" : String) ≠ "H2" ∧
    mapGet ((handleAuthentication 1 "H2" (some "A")
        ((handleAuthentication 0 "H1" (some "A") emptyState).1)).1).userSockets "H1"
      = some ⟨"A", 0⟩ ∧
    mapGet ((handleAuthentication 1 "H2" (some "A")
        ((handleAuthentication 0 "H1" (some "A") emptyState).1)).1).userSockets "H2"
      = some ⟨"A", 1⟩ := by
  refine ⟨by decide, by decide, by decide⟩

/-- C2, amended: in the identity to handle direction (connectedUsers),
every sequence of identify calls from the empty state keeps at most one
handle per identity (the key list stays duplicate free), and a later
identify for an already-present identity replaces the previous mapping
and emits only the authenticated acknowledgement to the new connection,
nothing to the evicted one; the handle to identity direction
(userSockets) may retain superseded handles still bound to the same
identity. -/
theorem c2_single_binding_per_identity (calls : List (Nat × String × Option String))
    (s : WSState) (A h1 h2 : String) (n1 n2 : Nat) (hA : A ≠ "") :
    (mapKeys (runIdentifies calls emptyState).connectedUsers).Nodup ∧
    mapGet ((handleAuthentication n2 h2 (some A)
        ((handleAuthentication n1 h1 (some A) s).1)).1).connectedUsers A = some h2 ∧
    (handleAuthentication n2 h2 (some A)
        ((handleAuthentication n1 h1 (some A) s).1)).2
      = [(h2, WSEvent.authenticated true A)] := by
  refine ⟨runIdentifies_keys_nodup calls emptyState (by simp [emptyState, mapKeys]), ?_, ?_⟩
  · simp [handleAuthentication, strTruthy, hA, mapGet_set_self]
  · simp [handleAuthentication, strTruthy, hA]

/-- C2, witness for the amended theorem at concrete inputs. -/
theorem c2_single_binding_per_identity_witness :
    (mapKeys (runIdentifies [(0, "H1", some "A"), (1, "H2", some "A")]
        emptyState).connectedUsers).Nodup ∧
    mapGet ((handleAuthentication 1 "H2" (some "A")
        ((handleAuthentication 0 "H1" (some "A") emptyState).1)).1).connectedUsers "A"
      = some "H2" ∧
    (handleAuthentication 1 "H2" (some "A")
        ((handleAuthentication 0 "H1" (some "A") emptyState).1)).2
      = [("H2", WSEvent.authenticated true "A")] :=
  c2_single_binding_per_identity [(0, "H1", some "A"), (1, "H2", some "A")]
    emptyState "A" "H1" "H2" 0 1 (by decide)

/-- C3, counterexample. The spec claims that when the caller supplied a
message id m, both the message event and the delivery receipt carry id
m. The source computes the id by JavaScript truthiness, so the supplied
empty-string id is discarded and a generated token is used instead: with
caller id the empty string, both events carry msg_5_r4nd0m, not the
supplied id. -/
theorem c3_counterexample :
    (handleMessageSend ⟨5, "r4nd0m"⟩ "H1" ⟨some "B", some "P", none, some ""⟩
        ((handleAuthentication 1 "H2" (some "B")
          ((handleAuthentication 0 "H1" (some "A") emptyState).1)).1)).2
      = [("H2", WSEvent.message "msg_5_r4nd0m" "A" "B" "P" 5 5),
         ("H1", WSEvent.messageDelivered "msg_5_r4nd0m" "delivered" none 5)] ∧
    ("msg_5_r4nd0m" : String) ≠ "" := by
  refine ⟨by decide, by decide⟩

/-- C3, amended: after identify A on h1 and identify B on h2, a
sendMessage from h1 with recipient B and non-empty payload P emits
exactly one message event on the connection of B with content P and
sender A, and exactly one delivered receipt on the connection of A, the
two events carrying the same id: the caller id m when a non-empty m was
supplied, else the freshly generated token (a missing or empty caller id
is falsy and replaced). -/
theorem c3_roundtrip (env : Env) (s : WSState) (A B P m h1 h2 : String)
    (n1 n2 : Nat) (tso : Option Nat)
    (hA : A ≠ "") (hB : B ≠ "") (hP : P ≠ "") (hm : m ≠ "") (hh : h1 ≠ h2) :
    (handleMessageSend env h1 ⟨some B, some P, tso, some m⟩
        ((handleAuthentication n2 h2 (some B)
          ((handleAuthentication n1 h1 (some A) s).1)).1)).2
      = [(h2, WSEvent.message m A B P (resolveTimestamp tso env.now) env.now),
         (h1, WSEvent.messageDelivered m "delivered" none env.now)] ∧
    (handleMessageSend env h1 ⟨some B, some P, tso, none⟩
        ((handleAuthentication n2 h2 (some B)
          ((handleAuthentication n1 h1 (some A) s).1)).1)).2
      = [(h2, WSEvent.message (genMessageId env) A B P
            (resolveTimestamp tso env.now) env.now),
         (h1, WSEvent.messageDelivered (genMessageId env) "delivered" none env.now)] := by
  have hcu : mapGet (mapSet (mapSet s.connectedUsers A h1) B h2) B = some h2 :=
    mapGet_set_self _ _ _
  have hus : mapGet (mapSet (mapSet s.userSockets h1 ⟨A, n1⟩) h2 ⟨B, n2⟩) h1
      = some ⟨A, n1⟩ := by
    rw [mapGet_set_ne _ h2 h1 _ hh, mapGet_set_self]
  constructor <;>
    simp [handleMessageSend, handleAuthentication, strTruthy, hA, hB, hP, hm,
      resolveMessageId, hcu, hus]

/-- C3, witness for the amended theorem at concrete inputs. -/
theorem c3_roundtrip_witness :
    (handleMessageSend ⟨5, "x9"⟩ "H1" ⟨some "bob", some "ct1", some 3, some "m1"⟩
        ((handleAuthentication 1 "H2" (some "bob")
          ((handleAuthentication 0 "H1" (some "alice") emptyState).1)).1)).2
      = [("H2", WSEvent.message "m1" "alice" "bob" "ct1" (resolveTimestamp (some 3) 5) 5),
         ("H1", WSEvent.messageDelivered "m1" "delivered" none 5)] ∧
    (handleMessageSend ⟨5, "x9"⟩ "H1" ⟨some "bob", some "ct1", some 3, none⟩
        ((handleAuthentication 1 "H2" (some "bob")
          ((handleAuthentication 0 "H1" (some "alice") emptyState).1)).1)).2
      = [("H2", WSEvent.message (genMessageId ⟨5, "x9"⟩) "alice" "bob" "ct1"
            (resolveTimestamp (some 3) 5) 5),
         ("H1", WSEvent.messageDelivered (genMessageId ⟨5, "x9"⟩) "delivered" none 5)] :=
  c3_roundtrip ⟨5, "x9"⟩ emptyState "alice" "bob" "ct1" "m1" "H1" "H2" 0 1 (some 3)
    (by decide) (by decide) (by decide) (by decide) (by decide)

/-- C4 (confirmed): an identified sender messaging a recipient absent
from connectedUsers gets exactly one delivery receipt on its own
connection, with status failed and the source literal error Recipient is
offline (the recipient offline receipt of the spec); no other connection
receives anything and the state, hence the Presence Table, is
unchanged. -/
theorem c4_recipient_offline (env : Env) (s : WSState) (h ghost P : String)
    (d : UserData) (tso : Option Nat) (ido : Option String)
    (hsender : mapGet s.userSockets h = some d)
    (hg : ghost ≠ "") (hP : P ≠ "")
    (habsent : mapGet s.connectedUsers ghost = none) :
    handleMessageSend env h ⟨some ghost, some P, tso, ido⟩ s
      = (s, [(h, WSEvent.messageDelivered (resolveMessageId ido env) "failed"
          (some "Recipient is offline") env.now)]) := by
  simp [handleMessageSend, hsender, strTruthy, hg, hP, habsent]

/-- C4, witness at concrete inputs. -/
theorem c4_recipient_offline_witness :
    handleMessageSend ⟨5, "r"⟩ "H1" ⟨some "ghost", some "P", none, some "m7"⟩
        ((handleAuthentication 0 "H1" (some "alice") emptyState).1)
      = ((handleAuthentication 0 "H1" (some "alice") emptyState).1,
         [("H1", WSEvent.messageDelivered (resolveMessageId (some "m7") ⟨5, "r"⟩) "failed"
            (some "Recipient is offline") 5)]) :=
  c4_recipient_offline ⟨5, "r"⟩ ((handleAuthentication 0 "H1" (some "alice") emptyState).1)
    "H1" "ghost" "P" ⟨"alice", 0⟩ none (some "m7")
    (by decide) (by decide) (by decide) (by decide)

/-- C8 (confirmed): a typing event from an unidentified connection, or
one whose recipient is missing or not in connectedUsers, emits nothing
on any connection and never mutates the state; from an identified sender
to a connected recipient, exactly one userTyping event carrying the
sender identity and the isTyping flag is emitted on the connection of
the recipient. -/
theorem c8_typing (s : WSState) (h0 h1 t0 t1 r : String) (d : UserData)
    (td : TypingData) (b1 b2 : Bool)
    (hh0 : mapGet s.userSockets h0 = none)
    (hh1 : mapGet s.userSockets h1 = some d)
    (ht0 : mapGet s.connectedUsers t0 = none)
    (ht1 : mapGet s.connectedUsers t1 = some r) :
    handleTyping h0 td s = (s, []) ∧
    handleTyping h1 ⟨some t0, b1⟩ s = (s, []) ∧
    handleTyping h1 ⟨none, b1⟩ s = (s, []) ∧
    handleTyping h1 ⟨some t1, b2⟩ s = (s, [(r, WSEvent.userTyping d.username b2)]) := by
  refine ⟨?_, ?_, ?_, ?_⟩
  · simp [handleTyping, hh0]
  · simp [handleTyping, hh1, ht0]
  · simp [handleTyping, hh1]
  · simp [handleTyping, hh1, ht1]

/-- C8, witness at concrete inputs. -/
theorem c8_typing_witness :
    handleTyping "H0" ⟨some "alice", true⟩
        ((handleAuthentication 0 "H1" (some "alice") emptyState).1)
      = ((handleAuthentication 0 "H1" (some "alice") emptyState).1, []) ∧
    handleTyping "H1" ⟨some "ghost", true⟩
        ((handleAuthentication 0 "H1" (some "alice") emptyState).1)
      = ((handleAuthentication 0 "H1" (some "alice") emptyState).1, []) ∧
    handleTyping "H1" ⟨none, true⟩
        ((handleAuthentication 0 "H1" (some "alice") emptyState).1)
      = ((handleAuthentication 0 "H1" (some "alice") emptyState).1, []) ∧
    handleTyping "H1" ⟨some "alice", false⟩
        ((handleAuthentication 0 "H1" (some "alice") emptyState).1)
      = ((handleAuthentication 0 "H1" (some "alice") emptyState).1,
         [("H1", WSEvent.userTyping "alice" false)]) :=
  c8_typing ((handleAuthentication 0 "H1" (some "alice") emptyState).1)
    "H0" "H1" "ghost" "alice" "H1" ⟨"alice", 0⟩ ⟨some "alice", true⟩ true false
    (by decide) (by decide) (by decide) (by decide)

/-- C9 (confirmed): over any state, the connected-user count equals the
length of the connected-usernames list, the is-online query answers true
exactly when the identity occurs in that list (the three queries are
pure functions of the table, so they agree atomically and mutate
nothing), and after identify alice and identify bob from the empty state
the count is 2 and the username set is exactly alice and bob. -/
theorem c9_introspection (s : WSState) (u v : String) :
    getConnectedUsersCount s = (getConnectedUsernames s).length ∧
    (isUserOnline s u = true ↔ u ∈ getConnectedUsernames s) ∧
    getConnectedUsersCount ((handleAuthentication 1 "H2" (some "bob")
        ((handleAuthentication 0 "H1" (some "alice") emptyState).1)).1) = 2 ∧
    (v ∈ getConnectedUsernames ((handleAuthentication 1 "H2" (some "bob")
        ((handleAuthentication 0 "H1" (some "alice") emptyState).1)).1)
      ↔ v = "alice" ∨ v = "bob") := by
  refine ⟨mapSize_eq_keys_length _, mapHas_iff_mem_keys _ _, by decide, ?_⟩
  have hkeys : getConnectedUsernames ((handleAuthentication 1 "H2" (some "bob")
      ((handleAuthentication 0 "H1" (some "alice") emptyState).1)).1)
      = ["alice", "bob"] := by decide
  rw [hkeys]
  simp

/-- C10 (confirmed, implicit claim): after h1 identifies as A and a
later, distinct h2 identifies as the same A, the superseded h1 keeps its
userSockets entry bound to A, and a sendMessage from h1 to an identified
recipient B is not rejected as unauthenticated: it is processed with
sender identity A, delivering the message event with sender A even
though connectedUsers maps A to h2. -/
theorem c10_stale_handle_still_identified (env : Env) (s : WSState)
    (A B P m h1 h2 hB : String) (n1 n2 n3 : Nat) (tso : Option Nat)
    (hA : A ≠ "") (hBne : B ≠ "") (hP : P ≠ "") (hm : m ≠ "")
    (h12 : h1 ≠ h2) (h1B : h1 ≠ hB) :
    mapGet ((handleAuthentication n3 hB (some B)
        ((handleAuthentication n2 h2 (some A)
          ((handleAuthentication n1 h1 (some A) s).1)).1)).1).userSockets h1
      = some ⟨A, n1⟩ ∧
    (handleMessageSend env h1 ⟨some B, some P, tso, some m⟩
        ((handleAuthentication n3 hB (some B)
          ((handleAuthentication n2 h2 (some A)
            ((handleAuthentication n1 h1 (some A) s).1)).1)).1)).2
      = [(hB, WSEvent.message m A B P (resolveTimestamp tso env.now) env.now),
         (h1, WSEvent.messageDelivered m "delivered" none env.now)] := by
  have hus : mapGet (mapSet (mapSet (mapSet s.userSockets h1 ⟨A, n1⟩) h2 ⟨A, n2⟩)
      hB ⟨B, n3⟩) h1 = some ⟨A, n1⟩ := by
    rw [mapGet_set_ne _ hB h1 _ h1B, mapGet_set_ne _ h2 h1 _ h12, mapGet_set_self]
  have hcu : mapGet (mapSet (mapSet (mapSet s.connectedUsers A h1) A h2) B hB) B
      = some hB := mapGet_set_self _ _ _
  constructor <;>
    simp [handleMessageSend, handleAuthentication, strTruthy, hA, hBne, hP, hm,
      resolveMessageId, hus, hcu]

/-- C10, witness at concrete inputs. -/
theorem c10_stale_handle_still_identified_witness :
    mapGet ((handleAuthentication 2 "H3" (some "bob")
        ((handleAuthentication 1 "H2" (some "alice")
          ((handleAuthentication 0 "H1" (some "alice") emptyState).1)).1)).1).userSockets "H1"
      = some ⟨"alice", 0⟩ ∧
    (handleMessageSend ⟨9, "x"⟩ "H1" ⟨some "bob", some "ct", none, some "m2"⟩
        ((handleAuthentication 2 "H3" (some "bob")
          ((handleAuthentication 1 "H2" (some "alice")
            ((handleAuthentication 0 "H1" (some "alice") emptyState).1)).1)).1)).2
      = [("H3", WSEvent.message "m2" "alice" "bob" "ct" (resolveTimestamp none 9) 9),
         ("H1", WSEvent.messageDelivered "m2" "delivered" none 9)] :=
  c10_stale_handle_still_identified ⟨9, "x"⟩ emptyState "alice" "bob" "ct" "m2"
    "H1" "H2" "H3" 0 1 2 none
    (by decide) (by decide) (by decide) (by decide) (by decide) (by decide)

end SecureChat
